import Mathlib

/-!
Shallow embedding of `src/render/factory.rs` (crate `luminite`): the
`RenderBuilder` / `RenderContext` construction pipeline over gfx-hal.

Backend and driver behaviour (adapter enumeration, surface compatibility,
swapchain backbuffer variant, fallibility of device create-calls) is
modelled by an explicit `Env` record; every Rust `unwrap()` on a fallible
call or panic (e.g. `remove(0)` on an empty vector) becomes an
`Except.error` tagged with the failing step.  Each stage additionally
emits a trace of resource-creation events so that claims about ordering
and about "no later resource is created" are statable.
-/

namespace Luminite

/-- gfx-hal `format::ChannelType` (the constructors the code can meet). -/
inductive ChannelType
  | Srgb
  | Unorm
  | Snorm
  | Uint
  | Sint
  | Ufloat
  | Sfloat
  deriving DecidableEq, Repr

/-- gfx-hal `format::Format`, abstracted to its `base_format()` projection:
a surface-type code paired with a channel type.  `Format::Rgba8Srgb` is the
fixed default the code falls back to. -/
structure Format where
  surfaceType : Nat
  channelType : ChannelType
  deriving DecidableEq, Repr

/-- `format.base_format()` — returns the (surface type, channel type) pair. -/
def Format.base_format (f : Format) : Nat × ChannelType :=
  (f.surfaceType, f.channelType)

/-- The surface-type code we use for the `Rgba8` base. -/
def rgba8SurfaceType : Nat := 8

/-- The fixed default `Format::Rgba8Srgb`. -/
def Format.Rgba8Srgb : Format :=
  { surfaceType := rgba8SurfaceType, channelType := ChannelType.Srgb }

/-- A queue family of a physical adapter: an id plus whether it supports
graphics operations (gfx-hal's `Graphics` capability). -/
structure QueueFamily where
  id : Nat
  supportsGraphics : Bool
  deriving DecidableEq, Repr

/-- gfx-hal `Adapter`: a physical device exposing queue families. -/
structure Adapter where
  queue_families : List QueueFamily
  deriving DecidableEq, Repr

/-- Surface capabilities, abstracted to the current extent used when the
swapchain config is derived via `SwapchainConfig::from_caps`. -/
structure SurfaceCapabilities where
  current_extent : Nat × Nat
  deriving DecidableEq, Repr

/-- A raw backbuffer image handle. -/
structure Image where
  id : Nat
  deriving DecidableEq, Repr

/-- gfx-hal `Backbuffer`: either raw images, or (OpenGL backend) one
ready-made framebuffer. -/
inductive Backbuffer
  | Images (images : List Image)
  | Framebuffer (fbo : Nat)
  deriving DecidableEq, Repr

/-- The backend / driver environment a `build()` run executes against.
Fallible driver calls are given success predicates; `supports_queue_family`
is the surface's presentability predicate on queue-family ids. -/
structure Env where
  adapters : List Adapter
  supports_queue_family : Nat → Bool
  formats : Option (List Format)
  caps : SurfaceCapabilities
  backbuffer : Backbuffer
  window_ok : Bool
  shader_module_ok : List Nat → Bool
  pipeline_ok : Bool
  image_view_ok : Image → Bool
  framebuffer_ok : Bool

/-- The gfx instance, tagged with the application name and version it was
created with (`back::Instance::create(self.title, 1)`). -/
structure InstanceH where
  name : String
  version : Nat
  deriving DecidableEq, Repr

/-- The winit events loop handle. -/
structure EventsLoop where
  created : Bool
  deriving DecidableEq, Repr

/-- The winit window, carrying the title and dimensions it was built with. -/
structure Window where
  title : String
  dimensions : Nat × Nat
  deriving DecidableEq, Repr

/-- The presentable surface bound to instance + window. -/
structure Surface where
  bound : Bool
  deriving DecidableEq, Repr

/-- The logical device opened from the chosen adapter. -/
structure Device where
  opened : Bool
  deriving DecidableEq, Repr

/-- The queue group returned by `open_with`: the chosen family id and the
number of queues requested. -/
structure QueueGroup where
  family : Nat
  num_queues : Nat
  deriving DecidableEq, Repr

/-- gfx-hal `CommandPoolCreateFlags` (TRANSIENT, RESET_INDIVIDUAL). -/
structure CommandPoolCreateFlags where
  transient : Bool
  reset_individual : Bool
  deriving DecidableEq, Repr

/-- `CommandPoolCreateFlags::empty()`. -/
def CommandPoolCreateFlags.empty : CommandPoolCreateFlags :=
  { transient := false, reset_individual := false }

/-- The typed command pool, carrying its creation flags and capacity. -/
structure CommandPool where
  flags : CommandPoolCreateFlags
  max_buffers : Nat
  deriving DecidableEq, Repr

/-- gfx-hal `AttachmentLoadOp`. -/
inductive AttachmentLoadOp
  | Load
  | Clear
  | DontCare
  deriving DecidableEq, Repr

/-- gfx-hal `AttachmentStoreOp`. -/
inductive AttachmentStoreOp
  | Store
  | DontCare
  deriving DecidableEq, Repr

/-- gfx-hal `AttachmentOps` (a load op paired with a store op). -/
structure AttachmentOps where
  load : AttachmentLoadOp
  store : AttachmentStoreOp
  deriving DecidableEq, Repr

/-- `AttachmentOps::DONT_CARE`. -/
def AttachmentOps.DONT_CARE : AttachmentOps :=
  { load := AttachmentLoadOp.DontCare, store := AttachmentStoreOp.DontCare }

/-- `AttachmentOps::new(load, store)`. -/
def AttachmentOps.new (load : AttachmentLoadOp) (store : AttachmentStoreOp) :
    AttachmentOps :=
  { load := load, store := store }

/-- gfx-hal image `Layout` (the constructors the code uses). -/
inductive Layout
  | Undefined
  | Present
  | ColorAttachmentOptimal
  deriving DecidableEq, Repr

/-- A render-pass attachment description. -/
structure Attachment where
  format : Option Format
  samples : Nat
  ops : AttachmentOps
  stencil_ops : AttachmentOps
  layouts : Layout × Layout
  deriving DecidableEq, Repr

/-- A subpass description. -/
structure SubpassDesc where
  colors : List (Nat × Layout)
  depth_stencil : Option (Nat × Layout)
  inputs : List (Nat × Layout)
  resolves : List (Nat × Layout)
  preserves : List Nat
  deriving DecidableEq, Repr

/-- gfx-hal `SubpassRef`. -/
inductive SubpassRef
  | External
  | Pass (n : Nat)
  deriving DecidableEq, Repr

/-- gfx-hal `PipelineStage` (only the flag the code uses). -/
inductive PipelineStage
  | COLOR_ATTACHMENT_OUTPUT
  deriving DecidableEq, Repr

/-- gfx-hal image `Access` flags, restricted to the color-attachment bits. -/
structure Access where
  color_attachment_read : Bool
  color_attachment_write : Bool
  deriving DecidableEq, Repr

/-- `Access::empty()`. -/
def Access.empty : Access :=
  { color_attachment_read := false, color_attachment_write := false }

/-- `Access::COLOR_ATTACHMENT_READ | Access::COLOR_ATTACHMENT_WRITE`. -/
def Access.colorReadWrite : Access :=
  { color_attachment_read := true, color_attachment_write := true }

/-- A subpass dependency. -/
structure SubpassDependency where
  passes : SubpassRef × SubpassRef
  stages : PipelineStage × PipelineStage
  accesses : Access × Access
  deriving DecidableEq, Repr

/-- The render pass: what `device.create_render_pass` was handed. -/
structure RenderPass where
  attachments : List Attachment
  subpasses : List SubpassDesc
  dependencies : List SubpassDependency
  deriving DecidableEq, Repr

/-- gfx-hal `Primitive` (only the variant the code uses). -/
inductive Primitive
  | TriangleList
  deriving DecidableEq, Repr

/-- gfx-hal `Rasterizer` (only the preset the code uses). -/
inductive Rasterizer
  | FILL
  deriving DecidableEq, Repr

/-- gfx-hal `ColorMask` (only `ALL`). -/
inductive ColorMask
  | ALL
  deriving DecidableEq, Repr

/-- gfx-hal `BlendState` (only `ALPHA`). -/
inductive BlendState
  | ALPHA
  deriving DecidableEq, Repr

/-- A color-blend target descriptor. -/
structure ColorBlendDesc where
  mask : ColorMask
  blend : BlendState
  deriving DecidableEq, Repr

/-- The graphics pipeline, carrying the descriptor data it was created
from: shader entry points, topology, rasterizer, blend targets and the
subpass index it is bound to. -/
structure GraphicsPipeline where
  vertex_entry : String
  fragment_entry : String
  primitive : Primitive
  rasterizer : Rasterizer
  blend_targets : List ColorBlendDesc
  subpass_index : Nat
  deriving DecidableEq, Repr

/-- The swapchain, carrying the format and extent of its config. -/
structure Swapchain where
  format : Format
  extent : Nat × Nat
  deriving DecidableEq, Repr

/-- gfx-hal `ViewKind` (only `D2`). -/
inductive ViewKind
  | D2
  deriving DecidableEq, Repr

/-- An image view created over a backbuffer image. -/
structure ImageView where
  image : Image
  kind : ViewKind
  format : Format
  deriving DecidableEq, Repr

/-- A framebuffer: either created from an image view against the render
pass at a given extent, or the backend's pre-built framebuffer used as-is. -/
inductive Framebuffer
  | ofView (view : ImageView) (extent : Nat × Nat)
  | prebuilt (fbo : Nat)
  deriving DecidableEq, Repr

/-- A semaphore (starts unsignaled). -/
structure Semaphore where
  signaled : Bool
  deriving DecidableEq, Repr

/-- A fence, created with the requested signaled state. -/
structure Fence where
  signaled : Bool
  deriving DecidableEq, Repr

/-- The builder: every resource field is `Option`, mirroring the Rust
struct exactly; shader bytecode is a byte list, title a string. -/
structure RenderBuilder where
  instance_ : Option InstanceH
  device : Option Device
  events_loop : Option EventsLoop
  window : Option Window
  surface : Option Surface
  queue_group : Option QueueGroup
  command_pool : Option CommandPool
  render_pass : Option RenderPass
  pipeline : Option GraphicsPipeline
  swapchain : Option Swapchain
  image_views : Option (List ImageView)
  frame_buffers : Option (List Framebuffer)
  frame_semaphore : Option Semaphore
  frame_fence : Option Fence
  vertex_shader : List Nat
  fragment_shader : List Nat
  title : String
  dimensions : Nat × Nat
  surface_color_format : Option Format
  adapter : Option Adapter
  caps : Option SurfaceCapabilities
  deriving DecidableEq, Repr

/-- `impl Default for RenderBuilder`. -/
def RenderBuilder.default : RenderBuilder where
  instance_ := none
  device := none
  events_loop := none
  window := none
  surface := none
  queue_group := none
  command_pool := none
  render_pass := none
  pipeline := none
  swapchain := none
  image_views := none
  frame_buffers := none
  frame_semaphore := none
  frame_fence := none
  vertex_shader := []
  fragment_shader := []
  title := ""
  dimensions := (720, 480)
  surface_color_format := none
  adapter := none
  caps := none

/-- `RenderBuilder::new()` — `RenderBuilder { ..Default::default() }`. -/
def RenderBuilder.new : RenderBuilder := RenderBuilder.default

/-- `with_vertex_shader`. -/
def RenderBuilder.with_vertex_shader (b : RenderBuilder) (v : List Nat) :
    RenderBuilder :=
  { b with vertex_shader := v }

/-- `with_fragment_shader`. -/
def RenderBuilder.with_fragment_shader (b : RenderBuilder) (v : List Nat) :
    RenderBuilder :=
  { b with fragment_shader := v }

/-- `with_title`. -/
def RenderBuilder.with_title (b : RenderBuilder) (t : String) :
    RenderBuilder :=
  { b with title := t }

/-- `with_dimensions`. -/
def RenderBuilder.with_dimensions (b : RenderBuilder) (d : Nat × Nat) :
    RenderBuilder :=
  { b with dimensions := d }

/-- The finished rendering context: every field total. -/
structure RenderContext where
  instance_ : InstanceH
  device : Device
  events_loop : EventsLoop
  window : Window
  surface : Surface
  queue_group : QueueGroup
  command_pool : CommandPool
  render_pass : RenderPass
  pipeline : GraphicsPipeline
  swapchain : Swapchain
  image_views : List ImageView
  frame_buffers : List Framebuffer
  frame_semaphore : Semaphore
  frame_fence : Fence
  deriving DecidableEq, Repr

/-- Where a run of `build()` fails: each constructor is one `unwrap()` /
panic site of the source. -/
inductive BuildError
  | windowCreate
  | noAdapter
  | noQueueFamily
  | noSrgbFormat
  | shaderModule
  | pipelineCreate
  | imageViewCreate
  | framebufferCreate
  | unsetField
  deriving DecidableEq, Repr

/-- Resource-creation events, in the order the underlying create-calls
run; used to state ordering and no-later-resource claims. -/
inductive Event
  | instanceCreated
  | eventsLoopCreated
  | windowCreated
  | surfaceCreated
  | deviceOpened
  | commandPoolCreated
  | renderPassCreated
  | pipelineLayoutCreated
  | shaderModuleCreated
  | pipelineCreated
  | swapchainCreated
  | imageViewCreated
  | framebufferCreated
  | semaphoreCreated
  | fenceCreated
  deriving DecidableEq, Repr

/-- A stage computation: the trace of create-calls it issued, plus either
the updated value or the error it aborted with. -/
abbrev StageM (α : Type) := List Event × Except BuildError α

/-- Sequence two stage computations, accumulating traces and
short-circuiting on error (a panic/`?` aborts `build` entirely). -/
def stageBind {α β : Type} (r : StageM α) (f : α → StageM β) : StageM β :=
  match r with
  | (tr, Except.error e) => (tr, Except.error e)
  | (tr, Except.ok a) =>
      match f a with
      | (tr2, out) => (tr ++ tr2, out)

/-- `build_instance`: `back::Instance::create(self.title, 1)`. -/
def build_instance (b : RenderBuilder) : StageM RenderBuilder :=
  ([Event.instanceCreated],
   Except.ok { b with instance_ := some { name := b.title, version := 1 } })

/-- `build_window_and_events_loop`: create the events loop, then build the
window with the builder's title and dimensions (`unwrap` on failure). -/
def build_window_and_events_loop (env : Env) (b : RenderBuilder) :
    StageM RenderBuilder :=
  if env.window_ok then
    ([Event.eventsLoopCreated, Event.windowCreated],
     Except.ok { b with
        events_loop := some { created := true },
        window := some { title := b.title, dimensions := b.dimensions } })
  else
    ([Event.eventsLoopCreated], Except.error BuildError.windowCreate)

/-- The effective queue-family filter of the source's
`open_with::<_, Graphics>(1, |family| surface.supports_queue_family(family))`
call: the `Graphics` capability required by the turbofish, conjoined with
the surface-presentability selector the code passes. -/
def familyCompatible (env : Env) (fam : QueueFamily) : Bool :=
  fam.supportsGraphics && env.supports_queue_family fam.id

/-- gfx-hal `Adapter::open_with::<_, Graphics>(1, selector)`: the first
queue family that supports the `Graphics` capability and satisfies the
selector yields a device and a one-queue group; none found is an error. -/
def open_with (env : Env) (a : Adapter) :
    Except BuildError (Device × QueueGroup) :=
  match a.queue_families.find? (familyCompatible env) with
  | some fam =>
      Except.ok ({ opened := true }, { family := fam.id, num_queues := 1 })
  | none => Except.error BuildError.noQueueFamily

/-- Lines 137-146: pick the color format — the first format of the
reported list whose `base_format().1` channel type is sRGB (the `find`'s
`unwrap` panics when a list is reported without one), or the fixed
default `Format::Rgba8Srgb` when no list is reported. -/
def pickSurfaceColorFormat (formats : Option (List Format)) :
    Except BuildError Format :=
  match formats with
  | some choices =>
      match choices.find?
          (fun format => format.base_format.2 == ChannelType.Srgb) with
      | some f => Except.ok f
      | none => Except.error BuildError.noSrgbFormat
  | none => Except.ok Format.Rgba8Srgb

/-- `build_device_and_queue_group_and_surface`: bind the surface, take the
first enumerated adapter (`remove(0)` panics when the list is empty), open
device + queue group, query `(caps, formats, _)`, and pick the color
format via `pickSurfaceColorFormat`. -/
def build_device_and_queue_group_and_surface (env : Env) (b : RenderBuilder) :
    StageM RenderBuilder :=
  match env.adapters with
  | [] => ([Event.surfaceCreated], Except.error BuildError.noAdapter)
  | adapter :: _ =>
      match open_with env adapter with
      | Except.error e => ([Event.surfaceCreated], Except.error e)
      | Except.ok (device, queue_group) =>
          match pickSurfaceColorFormat env.formats with
          | Except.error e =>
              ([Event.surfaceCreated, Event.deviceOpened], Except.error e)
          | Except.ok fmt =>
              ([Event.surfaceCreated, Event.deviceOpened],
               Except.ok { b with
                  surface := some { bound := true },
                  adapter := some adapter,
                  caps := some env.caps,
                  surface_color_format := some fmt,
                  device := some device,
                  queue_group := some queue_group })

/-- The command pool `build_command_pool` creates: empty flags, 16-buffer
capacity. -/
def theCommandPool : CommandPool :=
  { flags := CommandPoolCreateFlags.empty, max_buffers := 16 }

/-- `build_command_pool`: `create_command_pool_typed(queue_group,
CommandPoolCreateFlags::empty(), 16)`; unwraps `device`/`queue_group`. -/
def build_command_pool (b : RenderBuilder) : StageM RenderBuilder :=
  match b.device, b.queue_group with
  | some _, some _ =>
      let max_buffers := 16
      ([Event.commandPoolCreated],
       Except.ok { b with
          command_pool := some
            { flags := CommandPoolCreateFlags.empty,
              max_buffers := max_buffers } })
  | _, _ => ([], Except.error BuildError.unsetField)

/-- The color attachment `build_render_pass` constructs from the chosen
surface color format. -/
def mkColorAttachment (fmt : Format) : Attachment where
  format := some fmt
  samples := 1
  ops := AttachmentOps.new AttachmentLoadOp.Clear AttachmentStoreOp.Store
  stencil_ops := AttachmentOps.DONT_CARE
  layouts := (Layout.Undefined, Layout.Present)

/-- The single subpass description of `build_render_pass`. -/
def theSubpass : SubpassDesc where
  colors := [(0, Layout.ColorAttachmentOptimal)]
  depth_stencil := none
  inputs := []
  resolves := []
  preserves := []

/-- The External→Pass(0) dependency of `build_render_pass`. -/
def theDependency : SubpassDependency where
  passes := (SubpassRef.External, SubpassRef.Pass 0)
  stages := (PipelineStage.COLOR_ATTACHMENT_OUTPUT,
             PipelineStage.COLOR_ATTACHMENT_OUTPUT)
  accesses := (Access.empty, Access.colorReadWrite)

/-- `build_render_pass`: one color attachment (Clear/Store, stencil
DONT_CARE, Undefined→Present), one subpass, one dependency; unwraps
`surface_color_format` and `device`. -/
def build_render_pass (b : RenderBuilder) : StageM RenderBuilder :=
  match b.surface_color_format, b.device with
  | some fmt, some _ =>
      ([Event.renderPassCreated],
       Except.ok { b with
          render_pass := some
            { attachments := [mkColorAttachment fmt],
              subpasses := [theSubpass],
              dependencies := [theDependency] } })
  | _, _ => ([], Except.error BuildError.unsetField)

/-- The graphics pipeline descriptor `finish` assembles: both entry
points fixed to `"main"`, triangle-list topology, fill rasterization, one
alpha-blend color target, bound to subpass index 0. -/
def thePipeline : GraphicsPipeline where
  vertex_entry := "main"
  fragment_entry := "main"
  primitive := Primitive.TriangleList
  rasterizer := Rasterizer.FILL
  blend_targets := [{ mask := ColorMask.ALL, blend := BlendState.ALPHA }]
  subpass_index := 0

/-- `create_shader`: `device.create_shader_module(raw).unwrap()`. -/
def create_shader (env : Env) (raw : List Nat) :
    StageM (List Nat) :=
  if env.shader_module_ok raw then
    ([Event.shaderModuleCreated], Except.ok raw)
  else
    ([], Except.error BuildError.shaderModule)

/-- Create one image view per backbuffer image, in list order (`unwrap`
per view). -/
def createImageViews (env : Env) (fmt : Format) :
    List Image → StageM (List ImageView)
  | [] => ([], Except.ok [])
  | image :: rest =>
      if env.image_view_ok image then
        stageBind ([Event.imageViewCreated],
                   Except.ok ({ image := image, kind := ViewKind.D2,
                                format := fmt } : ImageView))
          (fun view =>
            stageBind (createImageViews env fmt rest)
              (fun views => ([], Except.ok (view :: views))))
      else
        ([], Except.error BuildError.imageViewCreate)

/-- Create one framebuffer per image view, in list order (`unwrap` per
framebuffer). -/
def createFramebuffers (env : Env) (extent : Nat × Nat) :
    List ImageView → StageM (List Framebuffer)
  | [] => ([], Except.ok [])
  | view :: rest =>
      if env.framebuffer_ok then
        stageBind ([Event.framebufferCreated],
                   Except.ok (Framebuffer.ofView view extent))
          (fun fb =>
            stageBind (createFramebuffers env extent rest)
              (fun fbs => ([], Except.ok (fb :: fbs))))
      else
        ([], Except.error BuildError.framebufferCreate)

/-- `finish`: create the (empty) pipeline layout, compile both shader
modules (vertex first), assemble the graphics pipeline against subpass 0
of the render pass, derive the swapchain config from `caps` and the
chosen format, create the swapchain, branch on the backbuffer variant
(raw images → one 2D view per image and one framebuffer per view; a
ready-made framebuffer → used as-is with no views), create the semaphore
and the (unsignaled) fence, and assemble the `RenderContext` by
unwrapping every builder field. -/
def finish (env : Env) (b : RenderBuilder) : StageM RenderContext :=
  match b.device with
  | none => ([], Except.error BuildError.unsetField)
  | some device =>
    stageBind ([Event.pipelineLayoutCreated], Except.ok ()) (fun _ =>
    stageBind (create_shader env b.vertex_shader) (fun _vmod =>
    stageBind (create_shader env b.fragment_shader) (fun _fmod =>
    stageBind (match b.render_pass with
               | some rp => (([] : List Event), Except.ok rp)
               | none => ([], Except.error BuildError.unsetField))
      (fun rp =>
    stageBind (if env.pipeline_ok then
                 ([Event.pipelineCreated], Except.ok thePipeline)
               else ([], Except.error BuildError.pipelineCreate))
      (fun pipeline =>
    stageBind (match b.caps, b.surface_color_format with
               | some caps, some fmt => (([] : List Event), Except.ok (caps, fmt))
               | _, _ => ([], Except.error BuildError.unsetField))
      (fun cf =>
    stageBind ([Event.swapchainCreated],
               Except.ok ({ format := cf.2,
                            extent := cf.1.current_extent } : Swapchain))
      (fun swapchain =>
    stageBind (match env.backbuffer with
               | Backbuffer.Images images =>
                   stageBind (createImageViews env cf.2 images)
                     (fun image_views =>
                       stageBind
                         (createFramebuffers env cf.1.current_extent
                           image_views)
                         (fun fbs => ([], Except.ok (image_views, fbs))))
               | Backbuffer.Framebuffer fbo =>
                   ([], Except.ok (([] : List ImageView),
                                   [Framebuffer.prebuilt fbo])))
      (fun vf =>
    stageBind ([Event.semaphoreCreated],
               Except.ok ({ signaled := false } : Semaphore))
      (fun frame_semaphore =>
    stageBind ([Event.fenceCreated],
               Except.ok ({ signaled := false } : Fence))
      (fun frame_fence =>
    match b.instance_, b.events_loop, b.window, b.surface,
          b.queue_group, b.command_pool with
    | some inst, some el, some win, some surf, some qg, some cp =>
        ([], Except.ok
          { instance_ := inst
            device := device
            events_loop := el
            window := win
            surface := surf
            queue_group := qg
            command_pool := cp
            render_pass := rp
            pipeline := pipeline
            swapchain := swapchain
            image_views := vf.1
            frame_buffers := vf.2
            frame_semaphore := frame_semaphore
            frame_fence := frame_fence })
    | _, _, _, _, _, _ => ([], Except.error BuildError.unsetField)))))))))))

/-- The five pre-`finish` stages of `build()`, in the source's fixed
order: instance, window/events-loop, device/queue/surface, command pool,
render pass. -/
def preStages (env : Env) (b : RenderBuilder) : StageM RenderBuilder :=
  stageBind (build_instance b) (fun b1 =>
  stageBind (build_window_and_events_loop env b1) (fun b2 =>
  stageBind (build_device_and_queue_group_and_surface env b2) (fun b3 =>
  stageBind (build_command_pool b3) (fun b4 =>
  build_render_pass b4))))

/-- `build()`: run the five stages in the source's fixed order, then
`finish`. -/
def build (env : Env) (b : RenderBuilder) : StageM RenderContext :=
  stageBind (preStages env b) (fun b5 => finish env b5)

/-! ### Helper lemmas about the stage monad and the individual stages -/

theorem stageBind_error {α β : Type} (tr : List Event) (e : BuildError)
    (f : α → StageM β) :
    stageBind (tr, Except.error e) f = ((tr, Except.error e) : StageM β) :=
  rfl

theorem stageBind_ok {α β : Type} (tr : List Event) (a : α)
    (f : α → StageM β) :
    stageBind (tr, Except.ok a) f = (tr ++ (f a).1, (f a).2) :=
  rfl

/-- Inversion: a successful `stageBind` decomposes into a successful first
stage and a successful continuation, traces appended. -/
theorem stageBind_eq_ok {α β : Type} {r : StageM α} {f : α → StageM β}
    {tr : List Event} {c : β} (h : stageBind r f = (tr, Except.ok c)) :
    ∃ tr₁ a tr₂, r = (tr₁, Except.ok a) ∧ f a = (tr₂, Except.ok c) ∧
      tr = tr₁ ++ tr₂ := by
  obtain ⟨tr₁, out⟩ := r
  cases out with
  | error e =>
      rw [stageBind_error] at h
      exact absurd (congrArg Prod.snd h) (by simp)
  | ok a =>
      rw [stageBind_ok] at h
      have h1 := congrArg Prod.fst h
      have h2 := congrArg Prod.snd h
      simp only at h1 h2
      exact ⟨tr₁, a, (f a).1, rfl, Prod.ext rfl h2, h1.symm⟩

theorem build_instance_eq_ok {b : RenderBuilder} {tr : List Event}
    {b' : RenderBuilder} (h : build_instance b = (tr, Except.ok b')) :
    tr = [Event.instanceCreated] ∧
    b' = { b with instance_ := some { name := b.title, version := 1 } } := by
  have h1 := congrArg Prod.fst h
  have h2 := congrArg Prod.snd h
  simp only [build_instance] at h1 h2
  refine ⟨h1.symm, ?_⟩
  injection h2 with h3
  exact h3.symm

theorem build_window_eq_ok {env : Env} {b : RenderBuilder} {tr : List Event}
    {b' : RenderBuilder}
    (h : build_window_and_events_loop env b = (tr, Except.ok b')) :
    env.window_ok = true ∧
    tr = [Event.eventsLoopCreated, Event.windowCreated] ∧
    b' = { b with
      events_loop := some { created := true },
      window := some { title := b.title, dimensions := b.dimensions } } := by
  unfold build_window_and_events_loop at h
  by_cases hw : env.window_ok
  · rw [if_pos hw] at h
    have h1 := congrArg Prod.fst h
    have h2 := congrArg Prod.snd h
    simp only at h1 h2
    exact ⟨hw, h1.symm, by injection h2 with h3; exact h3.symm⟩
  · rw [if_neg hw] at h
    exact absurd (congrArg Prod.snd h) (by simp)

theorem pickSurfaceColorFormat_eq_ok {formats : Option (List Format)}
    {fmt : Format} (h : pickSurfaceColorFormat formats = Except.ok fmt) :
    (formats = none ∧ fmt = Format.Rgba8Srgb) ∨
    (∃ l, formats = some l ∧
      l.find? (fun f => f.base_format.2 == ChannelType.Srgb) = some fmt) := by
  cases formats with
  | none =>
      left
      refine ⟨rfl, ?_⟩
      injection h with h1
      exact h1.symm
  | some choices =>
      right
      refine ⟨choices, rfl, ?_⟩
      unfold pickSurfaceColorFormat at h
      cases hf : choices.find?
          (fun format => format.base_format.2 == ChannelType.Srgb) with
      | none => simp [hf] at h
      | some f =>
          simp only [hf] at h
          injection h with h1
          rw [h1]

theorem open_with_eq_ok {env : Env} {a : Adapter} {dq : Device × QueueGroup}
    (h : open_with env a = Except.ok dq) :
    ∃ fam, a.queue_families.find? (familyCompatible env) = some fam ∧
      dq = ({ opened := true }, { family := fam.id, num_queues := 1 }) := by
  unfold open_with at h
  cases hf : a.queue_families.find? (familyCompatible env) with
  | none => rw [hf] at h; cases h
  | some fam =>
      rw [hf] at h
      injection h with h1
      exact ⟨fam, rfl, h1.symm⟩

theorem build_device_eq_ok {env : Env} {b : RenderBuilder} {tr : List Event}
    {b' : RenderBuilder}
    (h : build_device_and_queue_group_and_surface env b =
      (tr, Except.ok b')) :
    ∃ adapter rest fam fmt,
      env.adapters = adapter :: rest ∧
      adapter.queue_families.find? (familyCompatible env) = some fam ∧
      pickSurfaceColorFormat env.formats = Except.ok fmt ∧
      tr = [Event.surfaceCreated, Event.deviceOpened] ∧
      b' = { b with
        surface := some { bound := true },
        adapter := some adapter,
        caps := some env.caps,
        surface_color_format := some fmt,
        device := some { opened := true },
        queue_group := some { family := fam.id, num_queues := 1 } } := by
  unfold build_device_and_queue_group_and_surface at h
  cases hA : env.adapters with
  | nil => rw [hA] at h; exact absurd (congrArg Prod.snd h) (by simp)
  | cons adapter rest =>
      rw [hA] at h
      cases hO : open_with env adapter with
      | error e => simp [hO] at h
      | ok dq =>
          obtain ⟨fam, hfam, hdq⟩ := open_with_eq_ok hO
          cases hP : pickSurfaceColorFormat env.formats with
          | error e => rw [hdq] at hO; simp [hO, hP] at h
          | ok fmt =>
              rw [hdq] at hO
              simp only [hO, hP] at h
              have h1 := congrArg Prod.fst h
              have h2 := congrArg Prod.snd h
              simp only at h1 h2
              injection h2 with h3
              exact ⟨adapter, rest, fam, fmt, rfl, hfam, rfl, h1.symm, h3.symm⟩

theorem build_command_pool_eq_ok {b : RenderBuilder} {tr : List Event}
    {b' : RenderBuilder} (h : build_command_pool b = (tr, Except.ok b')) :
    tr = [Event.commandPoolCreated] ∧
    b' = { b with
      command_pool := some
        { flags := CommandPoolCreateFlags.empty, max_buffers := 16 } } := by
  unfold build_command_pool at h
  cases hd : b.device with
  | none => rw [hd] at h; cases h
  | some dev =>
      cases hq : b.queue_group with
      | none => rw [hd, hq] at h; cases h
      | some qg =>
          rw [hd, hq] at h
          have h1 := congrArg Prod.fst h
          have h2 := congrArg Prod.snd h
          simp only at h1 h2
          injection h2 with h3
          exact ⟨h1.symm, h3.symm⟩

theorem build_render_pass_eq_ok {b : RenderBuilder} {tr : List Event}
    {b' : RenderBuilder} (h : build_render_pass b = (tr, Except.ok b')) :
    ∃ fmt, b.surface_color_format = some fmt ∧
      tr = [Event.renderPassCreated] ∧
      b' = { b with
        render_pass := some
          { attachments := [mkColorAttachment fmt],
            subpasses := [theSubpass],
            dependencies := [theDependency] } } := by
  unfold build_render_pass at h
  cases hf : b.surface_color_format with
  | none => rw [hf] at h; cases h
  | some fmt =>
      cases hd : b.device with
      | none => rw [hf, hd] at h; cases h
      | some dev =>
          rw [hf, hd] at h
          have h1 := congrArg Prod.fst h
          have h2 := congrArg Prod.snd h
          simp only at h1 h2
          injection h2 with h3
          exact ⟨fmt, rfl, h1.symm, h3.symm⟩

theorem create_shader_eq_ok {env : Env} {raw : List Nat} {tr : List Event}
    {out : List Nat} (h : create_shader env raw = (tr, Except.ok out)) :
    env.shader_module_ok raw = true ∧ tr = [Event.shaderModuleCreated] := by
  unfold create_shader at h
  by_cases hs : env.shader_module_ok raw
  · rw [if_pos hs] at h
    exact ⟨hs, (congrArg Prod.fst h).symm⟩
  · rw [if_neg hs] at h
    exact absurd (congrArg Prod.snd h) (by simp)

/-- A successful image-view pass yields one view per image and one
creation event per image. -/
theorem createImageViews_eq_ok {env : Env} {fmt : Format}
    {images : List Image} {tr : List Event} {views : List ImageView}
    (h : createImageViews env fmt images = (tr, Except.ok views)) :
    views.length = images.length ∧
    tr = List.replicate images.length Event.imageViewCreated := by
  induction images generalizing tr views with
  | nil =>
      unfold createImageViews at h
      have h1 := congrArg Prod.fst h
      have h2 := congrArg Prod.snd h
      simp only at h1 h2
      injection h2 with h3
      subst h3
      exact ⟨rfl, h1.symm⟩
  | cons image rest ih =>
      unfold createImageViews at h
      by_cases hv : env.image_view_ok image
      · rw [if_pos hv] at h
        obtain ⟨t1, view, s1, hv1, h, htr⟩ := stageBind_eq_ok h
        obtain ⟨t2, vs, s2, hrec, hlast, htr2⟩ := stageBind_eq_ok h
        have hv1a := congrArg Prod.fst hv1
        simp only at hv1a
        have hl1 := congrArg Prod.fst hlast
        have hl2 := congrArg Prod.snd hlast
        simp only at hl1 hl2
        injection hl2 with hl3
        obtain ⟨hlen, htrr⟩ := ih hrec
        subst htr htr2 hl3
        constructor
        · simp [hlen]
        · simp [htrr, hv1a.symm, hl1.symm, List.replicate_succ]
      · rw [if_neg hv] at h
        exact absurd (congrArg Prod.snd h) (by simp)

/-- A successful framebuffer pass yields one framebuffer per view and
one creation event per view. -/
theorem createFramebuffers_eq_ok {env : Env} {extent : Nat × Nat}
    {views : List ImageView} {tr : List Event} {fbs : List Framebuffer}
    (h : createFramebuffers env extent views = (tr, Except.ok fbs)) :
    fbs.length = views.length ∧
    tr = List.replicate views.length Event.framebufferCreated := by
  induction views generalizing tr fbs with
  | nil =>
      unfold createFramebuffers at h
      have h1 := congrArg Prod.fst h
      have h2 := congrArg Prod.snd h
      simp only at h1 h2
      injection h2 with h3
      subst h3
      exact ⟨rfl, h1.symm⟩
  | cons view rest ih =>
      unfold createFramebuffers at h
      by_cases hv : env.framebuffer_ok
      · rw [if_pos hv] at h
        obtain ⟨t1, fb, s1, hv1, h, htr⟩ := stageBind_eq_ok h
        obtain ⟨t2, fs, s2, hrec, hlast, htr2⟩ := stageBind_eq_ok h
        have hv1a := congrArg Prod.fst hv1
        simp only at hv1a
        have hl1 := congrArg Prod.fst hlast
        have hl2 := congrArg Prod.snd hlast
        simp only at hl1 hl2
        injection hl2 with hl3
        obtain ⟨hlen, htrr⟩ := ih hrec
        subst htr htr2 hl3
        constructor
        · simp [hlen]
        · simp [htrr, hv1a.symm, hl1.symm, List.replicate_succ]
      · rw [if_neg hv] at h
        exact absurd (congrArg Prod.snd h) (by simp)

/-- The trace a successful pre-`finish` run always produces. -/
def preTrace : List Event :=
  [Event.instanceCreated, Event.eventsLoopCreated, Event.windowCreated,
   Event.surfaceCreated, Event.deviceOpened, Event.commandPoolCreated,
   Event.renderPassCreated]

/-- Inversion for the five pre-`finish` stages: a successful run fixes
the trace, demands a window, a first adapter with a compatible family and
a chosen format, and yields exactly the expected builder record. -/
theorem preStages_eq_ok {env : Env} {b : RenderBuilder} {tr : List Event}
    {b' : RenderBuilder} (h : preStages env b = (tr, Except.ok b')) :
    ∃ adapter rest fam fmt,
      env.window_ok = true ∧
      env.adapters = adapter :: rest ∧
      adapter.queue_families.find? (familyCompatible env) = some fam ∧
      pickSurfaceColorFormat env.formats = Except.ok fmt ∧
      tr = preTrace ∧
      b' = { b with
        instance_ := some { name := b.title, version := 1 },
        events_loop := some { created := true },
        window := some { title := b.title, dimensions := b.dimensions },
        surface := some { bound := true },
        adapter := some adapter,
        caps := some env.caps,
        surface_color_format := some fmt,
        device := some { opened := true },
        queue_group := some { family := fam.id, num_queues := 1 },
        command_pool := some
          { flags := CommandPoolCreateFlags.empty, max_buffers := 16 },
        render_pass := some
          { attachments := [mkColorAttachment fmt],
            subpasses := [theSubpass],
            dependencies := [theDependency] } } := by
  unfold preStages at h
  obtain ⟨t1, b1, s1, hI, h, htr1⟩ := stageBind_eq_ok h
  obtain ⟨t2, b2, s2, hW, h, htr2⟩ := stageBind_eq_ok h
  obtain ⟨t3, b3, s3, hD, h, htr3⟩ := stageBind_eq_ok h
  obtain ⟨t4, b4, s4, hC, hR, htr4⟩ := stageBind_eq_ok h
  obtain ⟨ht1, hb1⟩ := build_instance_eq_ok hI
  obtain ⟨hw, ht2, hb2⟩ := build_window_eq_ok hW
  obtain ⟨adapter, rest, fam, fmt, hA, hfam, hP, ht3, hb3⟩ :=
    build_device_eq_ok hD
  obtain ⟨ht4, hb4⟩ := build_command_pool_eq_ok hC
  obtain ⟨fmt', hfmt', ht5, hb5⟩ := build_render_pass_eq_ok hR
  subst hb1 hb2 hb3 hb4
  simp only at hfmt'
  injection hfmt' with hfmt''
  subst hfmt''
  refine ⟨adapter, rest, fam, fmt, hw, hA, hfam, hP, ?_, ?_⟩
  · subst htr1 htr2 htr3 htr4 ht1 ht2 ht3 ht4 ht5
    rfl
  · rw [hb5]

/-- The fixed trace prefix of a successful `finish`, up to the swapchain. -/
def finishPrefix : List Event :=
  [Event.pipelineLayoutCreated, Event.shaderModuleCreated,
   Event.shaderModuleCreated, Event.pipelineCreated, Event.swapchainCreated]

/-- Inversion for `finish`: a successful run demands every builder field
set and both shader modules plus the pipeline accepted, produces the fixed
pipeline/swapchain/sync records, and branches on the backbuffer: raw
images give view/framebuffer lists created from them; a ready-made
framebuffer is used as-is with no views. -/
theorem finish_eq_ok {env : Env} {b : RenderBuilder} {tr : List Event}
    {ctx : RenderContext} (h : finish env b = (tr, Except.ok ctx)) :
    ∃ dev fmt caps rp inst el win surf qg cp,
      b.device = some dev ∧ b.surface_color_format = some fmt ∧
      b.caps = some caps ∧ b.render_pass = some rp ∧
      b.instance_ = some inst ∧ b.events_loop = some el ∧
      b.window = some win ∧ b.surface = some surf ∧
      b.queue_group = some qg ∧ b.command_pool = some cp ∧
      env.shader_module_ok b.vertex_shader = true ∧
      env.shader_module_ok b.fragment_shader = true ∧
      env.pipeline_ok = true ∧
      ctx.instance_ = inst ∧ ctx.device = dev ∧ ctx.events_loop = el ∧
      ctx.window = win ∧ ctx.surface = surf ∧ ctx.queue_group = qg ∧
      ctx.command_pool = cp ∧ ctx.render_pass = rp ∧
      ctx.pipeline = thePipeline ∧
      ctx.swapchain = { format := fmt, extent := caps.current_extent } ∧
      ctx.frame_semaphore = { signaled := false } ∧
      ctx.frame_fence = { signaled := false } ∧
      ((∃ images ivtr fbtr,
          env.backbuffer = Backbuffer.Images images ∧
          createImageViews env fmt images =
            (ivtr, Except.ok ctx.image_views) ∧
          createFramebuffers env caps.current_extent ctx.image_views =
            (fbtr, Except.ok ctx.frame_buffers) ∧
          tr = finishPrefix ++ (ivtr ++ fbtr) ++
               [Event.semaphoreCreated, Event.fenceCreated]) ∨
       (∃ fbo, env.backbuffer = Backbuffer.Framebuffer fbo ∧
          ctx.image_views = [] ∧
          ctx.frame_buffers = [Framebuffer.prebuilt fbo] ∧
          tr = finishPrefix ++
               [Event.semaphoreCreated, Event.fenceCreated])) := by
  unfold finish at h
  cases hdev : b.device with
  | none => rw [hdev] at h; exact absurd (congrArg Prod.snd h) (by simp)
  | some dev =>
  rw [hdev] at h
  obtain ⟨t1, u1, s1, hPL, h, htr1⟩ := stageBind_eq_ok h
  obtain ⟨t2, vmod, s2, hVS, h, htr2⟩ := stageBind_eq_ok h
  obtain ⟨t3, fmod, s3, hFS, h, htr3⟩ := stageBind_eq_ok h
  obtain ⟨t4, rp, s4, hRP, h, htr4⟩ := stageBind_eq_ok h
  obtain ⟨t5, pipe, s5, hPI, h, htr5⟩ := stageBind_eq_ok h
  obtain ⟨t6, cf, s6, hCF, h, htr6⟩ := stageBind_eq_ok h
  obtain ⟨t7, sc, s7, hSC, h, htr7⟩ := stageBind_eq_ok h
  obtain ⟨t8, vf, s8, hVF, h, htr8⟩ := stageBind_eq_ok h
  obtain ⟨t9, sem, s9, hSE, h, htr9⟩ := stageBind_eq_ok h
  obtain ⟨t10, fen, s10, hFE, hFIN, htr10⟩ := stageBind_eq_ok h
  -- the pipeline-layout step
  have ht1 : t1 = [Event.pipelineLayoutCreated] := (congrArg Prod.fst hPL).symm
  -- the two shader modules
  obtain ⟨hvs, ht2⟩ := create_shader_eq_ok hVS
  obtain ⟨hfs, ht3⟩ := create_shader_eq_ok hFS
  -- the render-pass unwrap
  have hrp : b.render_pass = some rp ∧ t4 = [] := by
    cases hr : b.render_pass with
    | none => rw [hr] at hRP; exact absurd (congrArg Prod.snd hRP) (by simp)
    | some rp0 =>
        rw [hr] at hRP
        have ha := congrArg Prod.fst hRP
        have hb2 := congrArg Prod.snd hRP
        simp only at ha hb2
        injection hb2 with hb3
        exact ⟨by rw [hb3], ha.symm⟩
  -- the pipeline creation
  have hpi : env.pipeline_ok = true ∧ t5 = [Event.pipelineCreated] ∧
      pipe = thePipeline := by
    by_cases hp : env.pipeline_ok
    · rw [if_pos hp] at hPI
      have ha := congrArg Prod.fst hPI
      have hb2 := congrArg Prod.snd hPI
      simp only at ha hb2
      injection hb2 with hb3
      exact ⟨hp, ha.symm, hb3.symm⟩
    · rw [if_neg hp] at hPI
      exact absurd (congrArg Prod.snd hPI) (by simp)
  -- the caps / format unwraps
  have hcf : b.caps = some cf.1 ∧ b.surface_color_format = some cf.2 ∧
      t6 = [] := by
    cases hc : b.caps with
    | none => rw [hc] at hCF; exact absurd (congrArg Prod.snd hCF) (by simp)
    | some caps0 =>
        cases hf : b.surface_color_format with
        | none =>
            rw [hc, hf] at hCF
            exact absurd (congrArg Prod.snd hCF) (by simp)
        | some fmt0 =>
            rw [hc, hf] at hCF
            have ha := congrArg Prod.fst hCF
            have hb2 := congrArg Prod.snd hCF
            simp only at ha hb2
            injection hb2 with hb3
            rw [← hb3]
            exact ⟨rfl, rfl, ha.symm⟩
  -- the swapchain
  have hsc : t7 = [Event.swapchainCreated] ∧
      sc = { format := cf.2, extent := cf.1.current_extent } := by
    have ha := congrArg Prod.fst hSC
    have hb2 := congrArg Prod.snd hSC
    simp only at ha hb2
    injection hb2 with hb3
    exact ⟨ha.symm, hb3.symm⟩
  -- the semaphore and fence
  have hse : t9 = [Event.semaphoreCreated] ∧ sem = { signaled := false } := by
    have ha := congrArg Prod.fst hSE
    have hb2 := congrArg Prod.snd hSE
    simp only at ha hb2
    injection hb2 with hb3
    exact ⟨ha.symm, hb3.symm⟩
  have hfe : t10 = [Event.fenceCreated] ∧ fen = { signaled := false } := by
    have ha := congrArg Prod.fst hFE
    have hb2 := congrArg Prod.snd hFE
    simp only at ha hb2
    injection hb2 with hb3
    exact ⟨ha.symm, hb3.symm⟩
  -- the final context assembly
  obtain ⟨inst, el, win, surf, qg, cp, hinst, hel, hwin, hsurf, hqg, hcp,
      hctx, hs10⟩ :
      ∃ inst el win surf qg cp,
        b.instance_ = some inst ∧ b.events_loop = some el ∧
        b.window = some win ∧ b.surface = some surf ∧
        b.queue_group = some qg ∧ b.command_pool = some cp ∧
        ctx = { instance_ := inst, device := dev, events_loop := el,
                window := win, surface := surf, queue_group := qg,
                command_pool := cp, render_pass := rp, pipeline := pipe,
                swapchain := sc, image_views := vf.1,
                frame_buffers := vf.2, frame_semaphore := sem,
                frame_fence := fen } ∧ s10 = [] := by
    cases hi : b.instance_ with
    | none => rw [hi] at hFIN; exact absurd (congrArg Prod.snd hFIN) (by simp)
    | some inst =>
    cases he : b.events_loop with
    | none =>
        rw [hi, he] at hFIN
        exact absurd (congrArg Prod.snd hFIN) (by simp)
    | some el =>
    cases hw : b.window with
    | none =>
        rw [hi, he, hw] at hFIN
        exact absurd (congrArg Prod.snd hFIN) (by simp)
    | some win =>
    cases hs : b.surface with
    | none =>
        rw [hi, he, hw, hs] at hFIN
        exact absurd (congrArg Prod.snd hFIN) (by simp)
    | some surf =>
    cases hq : b.queue_group with
    | none =>
        rw [hi, he, hw, hs, hq] at hFIN
        exact absurd (congrArg Prod.snd hFIN) (by simp)
    | some qg =>
    cases hc : b.command_pool with
    | none =>
        rw [hi, he, hw, hs, hq, hc] at hFIN
        exact absurd (congrArg Prod.snd hFIN) (by simp)
    | some cp =>
        rw [hi, he, hw, hs, hq, hc] at hFIN
        have ha := congrArg Prod.fst hFIN
        have hb2 := congrArg Prod.snd hFIN
        simp only at ha hb2
        injection hb2 with hb3
        exact ⟨inst, el, win, surf, qg, cp, rfl, rfl, rfl, rfl, rfl, rfl,
          hb3.symm, ha.symm⟩
  -- the backbuffer branch
  have hbb :
      (∃ images ivtr fbtr,
        env.backbuffer = Backbuffer.Images images ∧
        createImageViews env cf.2 images = (ivtr, Except.ok vf.1) ∧
        createFramebuffers env cf.1.current_extent vf.1 =
          (fbtr, Except.ok vf.2) ∧
        t8 = ivtr ++ fbtr) ∨
      (∃ fbo, env.backbuffer = Backbuffer.Framebuffer fbo ∧
        vf.1 = [] ∧ vf.2 = [Framebuffer.prebuilt fbo] ∧ t8 = []) := by
    cases hB : env.backbuffer with
    | Images images =>
        rw [hB] at hVF
        obtain ⟨ta, views, sa, hIV, hVF2, htra⟩ := stageBind_eq_ok hVF
        obtain ⟨tb, fbs, sb, hFB, hVF3, htrb⟩ := stageBind_eq_ok hVF2
        have ha := congrArg Prod.fst hVF3
        have hb2 := congrArg Prod.snd hVF3
        simp only at ha hb2
        injection hb2 with hb3
        left
        refine ⟨images, ta, tb, rfl, ?_, ?_, ?_⟩
        · rw [← hb3]
          exact hIV
        · rw [← hb3]
          exact hFB
        · subst htra htrb
          rw [← ha]
          simp
    | Framebuffer fbo =>
        rw [hB] at hVF
        have ha := congrArg Prod.fst hVF
        have hb2 := congrArg Prod.snd hVF
        simp only at ha hb2
        injection hb2 with hb3
        right
        exact ⟨fbo, rfl, by rw [← hb3], by rw [← hb3], ha.symm⟩
  refine ⟨dev, cf.2, cf.1, rp, inst, el, win, surf, qg, cp,
    rfl, hcf.2.1, hcf.1, hrp.1, hinst, hel, hwin, hsurf, hqg, hcp,
    hvs, hfs, hpi.1, ?_, ?_, ?_, ?_, ?_, ?_, ?_, ?_, ?_, ?_, ?_, ?_, ?_⟩
  · rw [hctx]
  · rw [hctx]
  · rw [hctx]
  · rw [hctx]
  · rw [hctx]
  · rw [hctx]
  · rw [hctx]
  · rw [hctx]
  · rw [hctx, hpi.2.2]
  · rw [hctx, hsc.2]
  · rw [hctx, hse.2]
  · rw [hctx, hfe.2]
  · -- the branch disjunction, with the trace assembled
    have htr : tr = t1 ++ (t2 ++ (t3 ++ (t4 ++ (t5 ++ (t6 ++ (t7 ++
        (t8 ++ (t9 ++ (t10 ++ s10))))))))) := by
      subst htr1 htr2 htr3 htr4 htr5 htr6 htr7 htr8 htr9 htr10
      rfl
    rw [ht1, ht2, ht3, hrp.2, hpi.2.1, hcf.2.2, hsc.1, hse.1, hfe.1,
      hs10] at htr
    cases hbb with
    | inl hI =>
        obtain ⟨images, ivtr, fbtr, hBi, hIV, hFB, ht8⟩ := hI
        left
        refine ⟨images, ivtr, fbtr, hBi, ?_, ?_, ?_⟩
        · rw [hctx]
          exact hIV
        · rw [hctx]
          exact hFB
        · rw [htr, ht8]
          simp [finishPrefix]
    | inr hF =>
        obtain ⟨fbo, hBf, hv1, hv2, ht8⟩ := hF
        right
        refine ⟨fbo, hBf, ?_, ?_, ?_⟩
        · rw [hctx]
          exact hv1
        · rw [hctx]
          exact hv2
        · rw [htr, ht8]
          simp [finishPrefix]

/-! ### Concrete sample inputs used by witnesses and counterexamples -/

/-- A sample adapter: one graphics-capable queue family with id 0. -/
def sampleAdapter : Adapter :=
  { queue_families := [{ id := 0, supportsGraphics := true }] }

/-- A sample backend environment: one adapter, a format list whose first
sRGB entry is in second position, a two-image backbuffer, and a driver
that accepts every create-call except shader modules built from empty
bytecode. -/
def sampleEnv : Env where
  adapters := [sampleAdapter]
  supports_queue_family := fun _ => true
  formats := some
    [{ surfaceType := 3, channelType := ChannelType.Unorm },
     { surfaceType := 3, channelType := ChannelType.Srgb },
     { surfaceType := 5, channelType := ChannelType.Srgb }]
  caps := { current_extent := (800, 600) }
  backbuffer := Backbuffer.Images [{ id := 10 }, { id := 11 }]
  window_ok := true
  shader_module_ok := fun raw => !raw.isEmpty
  pipeline_ok := true
  image_view_ok := fun _ => true
  framebuffer_ok := true

/-- A sample configured builder: title, dimensions and both shaders set. -/
def sampleBuilder : RenderBuilder :=
  RenderBuilder.with_fragment_shader
    (RenderBuilder.with_vertex_shader
      (RenderBuilder.with_dimensions
        (RenderBuilder.with_title RenderBuilder.new "demo") (800, 600))
      [1, 2])
    [3, 4]

/-- The concrete device/queue/surface stage run used by witnesses. -/
def sampleDeviceStage : StageM RenderBuilder :=
  build_device_and_queue_group_and_surface sampleEnv sampleBuilder

/-- A throwaway context used only as an `Option.getD` default. -/
def fallbackContext : RenderContext where
  instance_ := { name := "", version := 1 }
  device := { opened := true }
  events_loop := { created := true }
  window := { title := "", dimensions := (0, 0) }
  surface := { bound := true }
  queue_group := { family := 0, num_queues := 1 }
  command_pool := { flags := CommandPoolCreateFlags.empty, max_buffers := 0 }
  render_pass := { attachments := [], subpasses := [], dependencies := [] }
  pipeline := thePipeline
  swapchain := { format := Format.Rgba8Srgb, extent := (0, 0) }
  image_views := []
  frame_buffers := []
  frame_semaphore := { signaled := false }
  frame_fence := { signaled := false }

/-- The builder state the sample device stage produces. -/
def sampleDeviceBuilder : RenderBuilder :=
  (sampleDeviceStage.2.toOption).getD RenderBuilder.new

/-- The concrete full build run used by witnesses. -/
def sampleBuild : StageM RenderContext := build sampleEnv sampleBuilder

/-- The context the sample build produces. -/
def sampleContext : RenderContext :=
  (sampleBuild.2.toOption).getD fallbackContext

/-- An adapter whose first queue family supports presenting but not
graphics, while its second supports both. -/
def presentOnlyAdapter : Adapter :=
  { queue_families :=
      [{ id := 0, supportsGraphics := false },
       { id := 1, supportsGraphics := true }] }

/-- The sample environment with `presentOnlyAdapter` as sole adapter and
no reported format list. -/
def presentOnlyEnv : Env :=
  { sampleEnv with adapters := [presentOnlyAdapter], formats := none }

/-- The device stage run against `presentOnlyEnv`. -/
def presentOnlyStage : StageM RenderBuilder :=
  build_device_and_queue_group_and_surface presentOnlyEnv RenderBuilder.new

/-- The sample environment with an empty adapter list. -/
def emptyAdapterEnv : Env := { sampleEnv with adapters := [] }

/-- The sample environment whose driver also accepts empty shader
bytecode (for the default-builder end-to-end witness). -/
def acceptAllEnv : Env := { sampleEnv with shader_module_ok := fun _ => true }

/-- The sample environment whose backbuffer is a ready-made framebuffer. -/
def prebuiltEnv : Env :=
  { sampleEnv with backbuffer := Backbuffer.Framebuffer 7 }

/-- A sample builder with both shaders set and the fragment shader then
overwritten by empty bytecode. -/
def emptyFragBuilder : RenderBuilder :=
  RenderBuilder.with_fragment_shader
    (RenderBuilder.with_vertex_shader sampleBuilder [5, 6]) []

/-! ### Configuration-call sequences (for the setter idempotence claim) -/

/-- One configuration-setter call. -/
inductive ConfigCall
  | vertexShader (bytes : List Nat)
  | fragmentShader (bytes : List Nat)
  | titleCall (t : String)
  | dimensionsCall (d : Nat × Nat)
  deriving DecidableEq, Repr

/-- Apply one setter call to a builder. -/
def applyCall (b : RenderBuilder) : ConfigCall → RenderBuilder
  | ConfigCall.vertexShader v => RenderBuilder.with_vertex_shader b v
  | ConfigCall.fragmentShader v => RenderBuilder.with_fragment_shader b v
  | ConfigCall.titleCall t => RenderBuilder.with_title b t
  | ConfigCall.dimensionsCall d => RenderBuilder.with_dimensions b d

/-- Apply a whole sequence of setter calls, left to right. -/
def applyCalls (b : RenderBuilder) (cs : List ConfigCall) : RenderBuilder :=
  cs.foldl applyCall b

/-- The title a call sets, if any. -/
def callTitle : ConfigCall → Option String
  | ConfigCall.titleCall t => some t
  | _ => none

/-- The dimensions a call sets, if any. -/
def callDimensions : ConfigCall → Option (Nat × Nat)
  | ConfigCall.dimensionsCall d => some d
  | _ => none

/-- The vertex-shader bytes a call sets, if any. -/
def callVertex : ConfigCall → Option (List Nat)
  | ConfigCall.vertexShader v => some v
  | _ => none

/-- The fragment-shader bytes a call sets, if any. -/
def callFragment : ConfigCall → Option (List Nat)
  | ConfigCall.fragmentShader v => some v
  | _ => none

/-! ### Claim theorems -/

/-- C1: for every successful run of the device/queue/surface stage, the
chosen `surface_color_format` is the first sRGB-channel format of the
surface's compatible-format list whenever a list is reported — hence an
sRGB format that is a member of that list — and is the fixed default
`Rgba8Srgb` whenever no list is reported; no other fallback is ever
chosen. -/
theorem surface_color_format_selection (env : Env) (b b' : RenderBuilder)
    (tr : List Event)
    (h : build_device_and_queue_group_and_surface env b =
      (tr, Except.ok b')) :
    (∀ l, env.formats = some l →
       b'.surface_color_format =
         l.find? (fun f => f.base_format.2 == ChannelType.Srgb) ∧
       ∃ f, b'.surface_color_format = some f ∧ f ∈ l ∧
         f.channelType = ChannelType.Srgb) ∧
    (env.formats = none →
       b'.surface_color_format = some Format.Rgba8Srgb) := by
  obtain ⟨adapter, rest, fam, fmt, hA, hfam, hP, htr, hb⟩ :=
    build_device_eq_ok h
  subst hb
  obtain ⟨hN, hR⟩ | ⟨l, hl, hfind⟩ := pickSurfaceColorFormat_eq_ok hP
  · constructor
    · intro l hl
      rw [hN] at hl
      cases hl
    · intro _
      simp [hR]
  · constructor
    · intro l' hl'
      rw [hl] at hl'
      injection hl' with he
      subst he
      refine ⟨by simp [hfind], fmt, by simp, List.mem_of_find?_eq_some hfind,
        ?_⟩
      have hp := List.find?_some hfind
      simpa [Format.base_format] using hp
    · intro hnone
      rw [hl] at hnone
      cases hnone

/-- Witness for C1 at the sample environment (format list reported, first
sRGB entry in second position). -/
theorem surface_color_format_selection_witness :
    (∀ l, sampleEnv.formats = some l →
       sampleDeviceBuilder.surface_color_format =
         l.find? (fun f => f.base_format.2 == ChannelType.Srgb) ∧
       ∃ f, sampleDeviceBuilder.surface_color_format = some f ∧ f ∈ l ∧
         f.channelType = ChannelType.Srgb) ∧
    (sampleEnv.formats = none →
       sampleDeviceBuilder.surface_color_format = some Format.Rgba8Srgb) :=
  surface_color_format_selection sampleEnv sampleBuilder
    sampleDeviceBuilder sampleDeviceStage.1 (by rfl)

/-- C6: the render pass built by the render-pass stage has exactly one
subpass and exactly one color attachment with `Clear` load / `Store`
store, no depth/stencil attachment, the previously chosen
`surface_color_format` as the attachment format, and a single
External→subpass-0 dependency synchronizing color-attachment access. -/
theorem render_pass_shape (b : RenderBuilder) (fmt : Format) (dev : Device)
    (hfmt : b.surface_color_format = some fmt)
    (hdev : b.device = some dev) :
    ∃ rp, build_render_pass b =
        ([Event.renderPassCreated],
         Except.ok { b with render_pass := some rp }) ∧
      rp.subpasses.length = 1 ∧
      rp.attachments.length = 1 ∧
      rp.dependencies.length = 1 ∧
      rp.attachments = [mkColorAttachment fmt] ∧
      (mkColorAttachment fmt).ops.load = AttachmentLoadOp.Clear ∧
      (mkColorAttachment fmt).ops.store = AttachmentStoreOp.Store ∧
      (mkColorAttachment fmt).format = some fmt ∧
      rp.subpasses = [theSubpass] ∧
      theSubpass.depth_stencil = none ∧
      rp.dependencies = [theDependency] ∧
      theDependency.passes = (SubpassRef.External, SubpassRef.Pass 0) ∧
      theDependency.accesses = (Access.empty, Access.colorReadWrite) := by
  refine ⟨{ attachments := [mkColorAttachment fmt],
            subpasses := [theSubpass],
            dependencies := [theDependency] },
    ?_, rfl, rfl, rfl, rfl, rfl, rfl, rfl, rfl, rfl, rfl, rfl, rfl⟩
  unfold build_render_pass
  rw [hfmt, hdev]

/-- Witness for C6 at a concrete builder with a chosen format and an
opened device. -/
theorem render_pass_shape_witness :
    sampleDeviceBuilder.surface_color_format =
      some { surfaceType := 3, channelType := ChannelType.Srgb } ∧
    sampleDeviceBuilder.device = some { opened := true } ∧
    ∃ rp, build_render_pass sampleDeviceBuilder =
        ([Event.renderPassCreated],
         Except.ok { sampleDeviceBuilder with render_pass := some rp }) ∧
      rp.subpasses.length = 1 ∧
      rp.attachments.length = 1 ∧
      rp.dependencies.length = 1 ∧
      rp.attachments = [mkColorAttachment
        { surfaceType := 3, channelType := ChannelType.Srgb }] ∧
      (mkColorAttachment
        { surfaceType := 3, channelType := ChannelType.Srgb }).ops.load =
        AttachmentLoadOp.Clear ∧
      (mkColorAttachment
        { surfaceType := 3, channelType := ChannelType.Srgb }).ops.store =
        AttachmentStoreOp.Store ∧
      (mkColorAttachment
        { surfaceType := 3, channelType := ChannelType.Srgb }).format =
        some { surfaceType := 3, channelType := ChannelType.Srgb } ∧
      rp.subpasses = [theSubpass] ∧
      theSubpass.depth_stencil = none ∧
      rp.dependencies = [theDependency] ∧
      theDependency.passes = (SubpassRef.External, SubpassRef.Pass 0) ∧
      theDependency.accesses = (Access.empty, Access.colorReadWrite) :=
  ⟨by rfl, by rfl,
   render_pass_shape sampleDeviceBuilder
     { surfaceType := 3, channelType := ChannelType.Srgb }
     { opened := true } (by rfl) (by rfl)⟩

/-- C7: the command pool is always created with
`CommandPoolCreateFlags::empty()` and a fixed capacity of 16 buffers,
whatever the builder's title, dimensions or shader content. -/
theorem command_pool_fixed_capacity (b : RenderBuilder) (dev : Device)
    (qg : QueueGroup) (hdev : b.device = some dev)
    (hqg : b.queue_group = some qg) :
    build_command_pool b =
      ([Event.commandPoolCreated],
       Except.ok { b with command_pool := some theCommandPool }) ∧
    theCommandPool.max_buffers = 16 ∧
    theCommandPool.flags =
      { transient := false, reset_individual := false } := by
  refine ⟨?_, rfl, rfl⟩
  unfold build_command_pool
  rw [hdev, hqg]
  rfl

/-- Witness for C7 at the sample device-stage builder. -/
theorem command_pool_fixed_capacity_witness :
    sampleDeviceBuilder.device = some { opened := true } ∧
    sampleDeviceBuilder.queue_group =
      some { family := 0, num_queues := 1 } ∧
    (build_command_pool sampleDeviceBuilder =
      ([Event.commandPoolCreated],
       Except.ok
         { sampleDeviceBuilder with command_pool := some theCommandPool }) ∧
     theCommandPool.max_buffers = 16 ∧
     theCommandPool.flags =
       { transient := false, reset_individual := false }) :=
  ⟨by rfl, by rfl,
   command_pool_fixed_capacity sampleDeviceBuilder { opened := true }
     { family := 0, num_queues := 1 } (by rfl) (by rfl)⟩

/-- C2: every context `build()` returns either took the raw-images
backbuffer path — non-empty image views, one view per backbuffer image
and one framebuffer per view, so the two lists have equal length — or the
backend-provided-framebuffer path, with no image views and at least one
framebuffer.  (A conforming backend never reports an empty raw-image
backbuffer, which the well-formedness hypothesis records.) -/
theorem image_views_match_frame_buffers (env : Env) (b : RenderBuilder)
    (tr : List Event) (ctx : RenderContext)
    (hwf : ∀ images, env.backbuffer = Backbuffer.Images images →
      images ≠ [])
    (h : build env b = (tr, Except.ok ctx)) :
    (ctx.image_views ≠ [] ∧
     ctx.image_views.length = ctx.frame_buffers.length ∧
     ∃ images, env.backbuffer = Backbuffer.Images images ∧
       ctx.image_views.length = images.length) ∨
    ((∃ fbo, env.backbuffer = Backbuffer.Framebuffer fbo) ∧
     ctx.image_views = [] ∧ 1 ≤ ctx.frame_buffers.length) := by
  unfold build at h
  obtain ⟨t1, b5, t2, hpre, hfin, htr⟩ := stageBind_eq_ok h
  obtain ⟨dev, fmt, caps, rp, inst, el, win, surf, qg, cp, _, _, _, _, _, _,
    _, _, _, _, _, _, _, _, _, _, _, _, _, _, _, _, _, _, _, hbranch⟩ :=
    finish_eq_ok hfin
  cases hbranch with
  | inl hI =>
      obtain ⟨images, ivtr, fbtr, hB, hIV, hFB, _⟩ := hI
      left
      obtain ⟨hlenIV, _⟩ := createImageViews_eq_ok hIV
      obtain ⟨hlenFB, _⟩ := createFramebuffers_eq_ok hFB
      have hne : images ≠ [] := hwf images hB
      refine ⟨?_, hlenFB.symm, images, hB, hlenIV⟩
      intro hnil
      apply hne
      rw [hnil] at hlenIV
      exact List.eq_nil_of_length_eq_zero hlenIV.symm
  | inr hF =>
      obtain ⟨fbo, hB, hv, hfb, _⟩ := hF
      right
      refine ⟨⟨fbo, hB⟩, hv, ?_⟩
      rw [hfb]
      simp

/-- Witness for C2 at the sample environment (two raw backbuffer
images). -/
theorem image_views_match_frame_buffers_witness :
    (∀ images, sampleEnv.backbuffer = Backbuffer.Images images →
      images ≠ []) ∧
    ((sampleContext.image_views ≠ [] ∧
      sampleContext.image_views.length =
        sampleContext.frame_buffers.length ∧
      ∃ images, sampleEnv.backbuffer = Backbuffer.Images images ∧
        sampleContext.image_views.length = images.length) ∨
     ((∃ fbo, sampleEnv.backbuffer = Backbuffer.Framebuffer fbo) ∧
      sampleContext.image_views = [] ∧
      1 ≤ sampleContext.frame_buffers.length)) :=
  ⟨fun images himg => by cases himg; simp,
   image_views_match_frame_buffers sampleEnv sampleBuilder sampleBuild.1
     sampleContext (fun images himg => by cases himg; simp) (by rfl)⟩

/-- C3 counterexample: the stage does NOT always open "the first queue
family that supports presenting to the surface".  In `presentOnlyEnv` the
first family (id 0) supports presenting but not graphics; the
`Graphics` capability demanded by the source's `open_with::<_, Graphics>`
turbofish makes the stage open family 1 instead. -/
theorem first_present_family_not_opened :
    (presentOnlyAdapter.queue_families.find?
        (fun fam => presentOnlyEnv.supports_queue_family fam.id)).map
      QueueFamily.id = some 0 ∧
    (presentOnlyStage.2.toOption.getD RenderBuilder.new).queue_group =
      some { family := 1, num_queues := 1 } ∧
    some (1 : Nat) ≠ some (0 : Nat) := by
  refine ⟨by rfl, by rfl, by simp⟩

/-- C3 (amended): the device/queue/surface stage selects the first
enumerated adapter and opens a logical device with exactly one queue from
the first queue family that supports both graphics and presenting to the
surface; if the adapter list is empty, `build()` fails at this stage and
no command pool or any later resource is created. -/
theorem first_adapter_first_family_selection (env : Env)
    (b : RenderBuilder) :
    (∀ tr b', build_device_and_queue_group_and_surface env b =
        (tr, Except.ok b') →
      ∃ adapter rest fam,
        env.adapters = adapter :: rest ∧
        adapter.queue_families.find? (familyCompatible env) = some fam ∧
        b'.adapter = some adapter ∧
        b'.queue_group = some { family := fam.id, num_queues := 1 }) ∧
    (env.adapters = [] → env.window_ok = true →
      build env b =
        ([Event.instanceCreated, Event.eventsLoopCreated,
          Event.windowCreated, Event.surfaceCreated],
         Except.error BuildError.noAdapter)) := by
  constructor
  · intro tr b' h
    obtain ⟨adapter, rest, fam, fmt, hA, hfam, hP, htr, hb⟩ :=
      build_device_eq_ok h
    subst hb
    exact ⟨adapter, rest, fam, hA, hfam, by simp, by simp⟩
  · intro hA hw
    simp [build, preStages, build_instance, build_window_and_events_loop,
      hw, build_device_and_queue_group_and_surface, hA, stageBind, finish]

/-- Witness for C3 (amended): the empty-adapter run stops at the device
stage with only instance/events-loop/window/surface created, and the
sample run opens family 0 of the sample adapter with one queue. -/
theorem first_adapter_first_family_selection_witness :
    (emptyAdapterEnv.adapters = [] ∧ emptyAdapterEnv.window_ok = true ∧
     build emptyAdapterEnv RenderBuilder.new =
       ([Event.instanceCreated, Event.eventsLoopCreated,
         Event.windowCreated, Event.surfaceCreated],
        Except.error BuildError.noAdapter)) ∧
    (∃ adapter rest fam,
      sampleEnv.adapters = adapter :: rest ∧
      adapter.queue_families.find? (familyCompatible sampleEnv) =
        some fam ∧
      sampleDeviceBuilder.adapter = some adapter ∧
      sampleDeviceBuilder.queue_group =
        some { family := fam.id, num_queues := 1 }) :=
  ⟨⟨rfl, rfl,
    (first_adapter_first_family_selection emptyAdapterEnv
      RenderBuilder.new).2 rfl rfl⟩,
   (first_adapter_first_family_selection sampleEnv sampleBuilder).1
     sampleDeviceStage.1 sampleDeviceBuilder (by rfl)⟩

/-- When the driver rejects empty bytecode and a shader slot is empty,
`finish` aborts at the shader-module step: the trace past the pipeline
layout holds at most the vertex module, and the error is `shaderModule`. -/
theorem finish_shader_error {env : Env} {b : RenderBuilder} {dev : Device}
    (hdev : b.device = some dev)
    (hrej : env.shader_module_ok [] = false)
    (hempty : b.vertex_shader = [] ∨ b.fragment_shader = []) :
    finish env b = ([Event.pipelineLayoutCreated],
      Except.error BuildError.shaderModule) ∨
    finish env b = ([Event.pipelineLayoutCreated,
      Event.shaderModuleCreated], Except.error BuildError.shaderModule) := by
  unfold finish
  rw [hdev]
  by_cases hvx : env.shader_module_ok b.vertex_shader
  · cases hempty with
    | inl hv =>
        rw [hv] at hvx
        rw [hrej] at hvx
        cases hvx
    | inr hf =>
        right
        simp [stageBind, create_shader, hvx, hf, hrej]
  · left
    simp [stageBind, create_shader, hvx]

/-- C4: with all five earlier stages succeeding and a driver that rejects
empty bytecode, a builder whose vertex or fragment shader is empty makes
`build()` fail exactly at the shader-module-creation step of `finish`:
the error is `shaderModule`, the render pass and pipeline layout were
already created, and no pipeline, swapchain, image view, framebuffer,
semaphore or fence creation ever runs; the setters themselves accept the
empty bytecode without validation. -/
theorem empty_shader_fails_at_shader_module (env : Env)
    (b b5 : RenderBuilder) (tr0 : List Event)
    (hpre : preStages env b = (tr0, Except.ok b5))
    (hrej : env.shader_module_ok [] = false)
    (hempty : b.vertex_shader = [] ∨ b.fragment_shader = []) :
    (build env b).2 = Except.error BuildError.shaderModule ∧
    Event.renderPassCreated ∈ (build env b).1 ∧
    Event.commandPoolCreated ∈ (build env b).1 ∧
    Event.pipelineLayoutCreated ∈ (build env b).1 ∧
    Event.pipelineCreated ∉ (build env b).1 ∧
    Event.swapchainCreated ∉ (build env b).1 ∧
    Event.imageViewCreated ∉ (build env b).1 ∧
    Event.framebufferCreated ∉ (build env b).1 ∧
    Event.semaphoreCreated ∉ (build env b).1 ∧
    Event.fenceCreated ∉ (build env b).1 ∧
    (RenderBuilder.with_vertex_shader b []).vertex_shader = [] ∧
    (RenderBuilder.with_fragment_shader b []).fragment_shader = [] := by
  obtain ⟨adapter, rest, fam, fmt, hw, hA, hfam, hP, htr, hb5⟩ :=
    preStages_eq_ok hpre
  have hdev : b5.device = some { opened := true } := by rw [hb5]
  have hvx : b5.vertex_shader = b.vertex_shader := by rw [hb5]
  have hfg : b5.fragment_shader = b.fragment_shader := by rw [hb5]
  have hempty5 : b5.vertex_shader = [] ∨ b5.fragment_shader = [] := by
    rw [hvx, hfg]
    exact hempty
  have hfin := finish_shader_error hdev hrej hempty5
  have hbuild : build env b = (tr0 ++ (finish env b5).1,
      (finish env b5).2) := by
    unfold build
    rw [hpre]
    exact stageBind_ok tr0 b5 (fun x => finish env x)
  cases hfin with
  | inl hf =>
      rw [hbuild, hf, htr]
      exact ⟨rfl, by decide, by decide, by decide, by decide, by decide,
        by decide, by decide, by decide, by decide, rfl, rfl⟩
  | inr hf =>
      rw [hbuild, hf, htr]
      exact ⟨rfl, by decide, by decide, by decide, by decide, by decide,
        by decide, by decide, by decide, by decide, rfl, rfl⟩

/-- Witness for C4: the sample environment with the fragment shader
overwritten by empty bytecode fails with `shaderModule`, after the render
pass but before any pipeline/swapchain/sync creation. -/
theorem empty_shader_fails_at_shader_module_witness :
    sampleEnv.shader_module_ok [] = false ∧
    emptyFragBuilder.fragment_shader = [] ∧
    (build sampleEnv emptyFragBuilder).2 =
      Except.error BuildError.shaderModule ∧
    Event.renderPassCreated ∈ (build sampleEnv emptyFragBuilder).1 ∧
    Event.pipelineCreated ∉ (build sampleEnv emptyFragBuilder).1 ∧
    Event.swapchainCreated ∉ (build sampleEnv emptyFragBuilder).1 ∧
    Event.semaphoreCreated ∉ (build sampleEnv emptyFragBuilder).1 ∧
    Event.fenceCreated ∉ (build sampleEnv emptyFragBuilder).1 := by
  have h := empty_shader_fails_at_shader_module sampleEnv emptyFragBuilder
    ((preStages sampleEnv emptyFragBuilder).2.toOption.getD
      RenderBuilder.new)
    (preStages sampleEnv emptyFragBuilder).1 (by rfl) (by rfl)
    (Or.inr (by rfl))
  exact ⟨rfl, rfl, h.1, h.2.1, h.2.2.2.2.1, h.2.2.2.2.2.1,
    h.2.2.2.2.2.2.2.2.1, h.2.2.2.2.2.2.2.2.2.1⟩

/-- Every successful build wires the final title/dimensions into the
window and the title into the instance (shared helper). -/
theorem build_ok_window_instance {env : Env} {b : RenderBuilder}
    {tr : List Event} {ctx : RenderContext}
    (h : build env b = (tr, Except.ok ctx)) :
    ctx.window = { title := b.title, dimensions := b.dimensions } ∧
    ctx.instance_ = { name := b.title, version := 1 } ∧
    ctx.events_loop = { created := true } ∧
    ctx.surface = { bound := true } ∧
    ctx.device = { opened := true } ∧
    ctx.command_pool = theCommandPool ∧
    ctx.pipeline = thePipeline ∧
    ctx.frame_semaphore = { signaled := false } ∧
    ctx.frame_fence = { signaled := false } := by
  unfold build at h
  obtain ⟨t1, b5, t2, hpre, hfin, htr⟩ := stageBind_eq_ok h
  obtain ⟨adapter, rest, fam, fmt, hw, hA, hfam, hP, ht1, hb5⟩ :=
    preStages_eq_ok hpre
  obtain ⟨dev, fmt', caps, rp, inst, el, win, surf, qg, cp, hbd, hbf, hbc,
    hbr, hbi, hbe, hbw, hbs, hbq, hbp, _, _, _, hci, hcd, hce, hcw, hcs,
    hcq, hcp, hcr, hcpipe, hcsw, hcsem, hcfen, hbranch⟩ := finish_eq_ok hfin
  rw [hb5] at hbi hbe hbw hbs hbd hbp
  simp only at hbi hbe hbw hbs hbd hbp
  injection hbi with hbi2
  injection hbe with hbe2
  injection hbw with hbw2
  injection hbs with hbs2
  injection hbd with hbd2
  injection hbp with hbp2
  rw [hcw, hci, hce, hcs, hcd, hcp, ← hbi2, ← hbe2, ← hbw2, ← hbs2, ← hbd2,
    ← hbp2]
  exact ⟨rfl, rfl, rfl, rfl, rfl, rfl, hcpipe, hcsem, hcfen⟩

/-- C5: `build()` runs instance → window/event-loop → device/queue/surface
→ command pool → render pass → finalize in exactly that order — the
creation trace of every successful run is the fixed stage prefix, then the
finalize creations (pipeline layout, two shader modules, pipeline,
swapchain, one image view and framebuffer per backbuffer image, semaphore,
fence) — and the returned context is fully populated from those stages. -/
theorem build_stage_order (env : Env) (b : RenderBuilder) (tr : List Event)
    (ctx : RenderContext) (h : build env b = (tr, Except.ok ctx)) :
    (∃ n, tr = preTrace ++ finishPrefix ++
        (List.replicate n Event.imageViewCreated ++
         List.replicate n Event.framebufferCreated) ++
        [Event.semaphoreCreated, Event.fenceCreated] ∧
      ctx.image_views.length = n) ∧
    ctx.instance_ = { name := b.title, version := 1 } ∧
    ctx.window = { title := b.title, dimensions := b.dimensions } ∧
    ctx.events_loop = { created := true } ∧
    ctx.surface = { bound := true } ∧
    ctx.device = { opened := true } ∧
    ctx.command_pool = theCommandPool ∧
    ctx.pipeline = thePipeline ∧
    ctx.frame_semaphore = { signaled := false } ∧
    ctx.frame_fence = { signaled := false } := by
  obtain ⟨hcw, hci, hce, hcs, hcd, hcp, hcpipe, hcsem, hcfen⟩ :=
    build_ok_window_instance h
  refine ⟨?_, hci, hcw, hce, hcs, hcd, hcp, hcpipe, hcsem, hcfen⟩
  unfold build at h
  obtain ⟨t1, b5, t2, hpre, hfin, htr⟩ := stageBind_eq_ok h
  obtain ⟨adapter, rest, fam, fmt, hw, hA, hfam, hP, ht1, hb5⟩ :=
    preStages_eq_ok hpre
  obtain ⟨dev, fmt', caps, rp, inst, el, win, surf, qg, cp, _, _, _, _, _,
    _, _, _, _, _, _, _, _, _, _, _, _, _, _, _, _, _, _, _, _, hbranch⟩ :=
    finish_eq_ok hfin
  cases hbranch with
  | inl hI =>
      obtain ⟨images, ivtr, fbtr, hB, hIV, hFB, ht2⟩ := hI
      obtain ⟨hlenIV, hivtr⟩ := createImageViews_eq_ok hIV
      obtain ⟨hlenFB, hfbtr⟩ := createFramebuffers_eq_ok hFB
      refine ⟨images.length, ?_, hlenIV⟩
      rw [htr, ht1, ht2, hivtr, hfbtr, hlenIV]
      simp
  | inr hF =>
      obtain ⟨fbo, hB, hv, hfb, ht2⟩ := hF
      refine ⟨0, ?_, by rw [hv]; rfl⟩
      rw [htr, ht1, ht2]
      simp

/-- Witness for C5 at the sample run (two backbuffer images). -/
theorem build_stage_order_witness :
    (∃ n, sampleBuild.1 = preTrace ++ finishPrefix ++
        (List.replicate n Event.imageViewCreated ++
         List.replicate n Event.framebufferCreated) ++
        [Event.semaphoreCreated, Event.fenceCreated] ∧
      sampleContext.image_views.length = n) ∧
    sampleContext.instance_ = { name := "demo", version := 1 } ∧
    sampleContext.window = { title := "demo", dimensions := (800, 600) } ∧
    sampleContext.events_loop = { created := true } ∧
    sampleContext.surface = { bound := true } ∧
    sampleContext.device = { opened := true } ∧
    sampleContext.command_pool = theCommandPool ∧
    sampleContext.pipeline = thePipeline ∧
    sampleContext.frame_semaphore = { signaled := false } ∧
    sampleContext.frame_fence = { signaled := false } :=
  build_stage_order sampleEnv sampleBuilder sampleBuild.1 sampleContext
    (by rfl)

/-- C8: a freshly constructed builder has title `""`, dimensions
`(720, 480)`, empty vertex and fragment shader bytecode, and every
resource field unset; a subsequent `build()` creates the window from
exactly these defaults. -/
theorem new_builder_defaults :
    RenderBuilder.new.title = "" ∧
    RenderBuilder.new.dimensions = (720, 480) ∧
    RenderBuilder.new.vertex_shader = [] ∧
    RenderBuilder.new.fragment_shader = [] ∧
    RenderBuilder.new.instance_ = none ∧
    RenderBuilder.new.device = none ∧
    RenderBuilder.new.events_loop = none ∧
    RenderBuilder.new.window = none ∧
    RenderBuilder.new.surface = none ∧
    RenderBuilder.new.queue_group = none ∧
    RenderBuilder.new.command_pool = none ∧
    RenderBuilder.new.render_pass = none ∧
    RenderBuilder.new.pipeline = none ∧
    RenderBuilder.new.swapchain = none ∧
    RenderBuilder.new.image_views = none ∧
    RenderBuilder.new.frame_buffers = none ∧
    RenderBuilder.new.frame_semaphore = none ∧
    RenderBuilder.new.frame_fence = none ∧
    RenderBuilder.new.surface_color_format = none ∧
    RenderBuilder.new.adapter = none ∧
    RenderBuilder.new.caps = none ∧
    (∀ env tr ctx, build env RenderBuilder.new = (tr, Except.ok ctx) →
      ctx.window = { title := "", dimensions := (720, 480) }) := by
  refine ⟨rfl, rfl, rfl, rfl, rfl, rfl, rfl, rfl, rfl, rfl, rfl, rfl, rfl,
    rfl, rfl, rfl, rfl, rfl, rfl, rfl, rfl, ?_⟩
  intro env tr ctx h
  exact (build_ok_window_instance h).1

/-- Witness for C8: the default-constructed-builder build succeeds on a
driver that accepts empty bytecode and its window carries the defaults. -/
theorem new_builder_defaults_witness :
    RenderBuilder.new.title = "" ∧
    RenderBuilder.new.dimensions = (720, 480) ∧
    build acceptAllEnv RenderBuilder.new =
      ((build acceptAllEnv RenderBuilder.new).1,
       Except.ok ((build acceptAllEnv RenderBuilder.new).2.toOption.getD
         fallbackContext)) ∧
    ((build acceptAllEnv RenderBuilder.new).2.toOption.getD
        fallbackContext).window =
      { title := "", dimensions := (720, 480) } := by
  have h := new_builder_defaults
  exact ⟨h.1, h.2.1, by rfl,
    h.2.2.2.2.2.2.2.2.2.2.2.2.2.2.2.2.2.2.2.2.2 acceptAllEnv
      (build acceptAllEnv RenderBuilder.new).1
      ((build acceptAllEnv RenderBuilder.new).2.toOption.getD
        fallbackContext) (by rfl)⟩

/-- `(a :: l).getLast?.getD d` forgets the default when the tail already
has a last element. -/
theorem getLast_getD_cons {α : Type} (a d : α) (l : List α) :
    ((a :: l).getLast?).getD d = (l.getLast?).getD a := by
  induction l generalizing a d with
  | nil => rfl
  | cons x xs ih =>
      rw [List.getLast?_cons_cons, ih x d, ih x a]

theorem applyCalls_title (b : RenderBuilder) (cs : List ConfigCall) :
    (applyCalls b cs).title =
      ((cs.filterMap callTitle).getLast?).getD b.title := by
  induction cs generalizing b with
  | nil => rfl
  | cons c cs ih =>
      cases c with
      | titleCall t =>
          show (applyCalls (RenderBuilder.with_title b t) cs).title = _
          rw [ih]
          simp [callTitle, getLast_getD_cons, RenderBuilder.with_title]
      | vertexShader v =>
          show (applyCalls (RenderBuilder.with_vertex_shader b v) cs).title
            = _
          rw [ih]
          simp [callTitle, RenderBuilder.with_vertex_shader]
      | fragmentShader v =>
          show (applyCalls
            (RenderBuilder.with_fragment_shader b v) cs).title = _
          rw [ih]
          simp [callTitle, RenderBuilder.with_fragment_shader]
      | dimensionsCall d =>
          show (applyCalls (RenderBuilder.with_dimensions b d) cs).title = _
          rw [ih]
          simp [callTitle, RenderBuilder.with_dimensions]

theorem applyCalls_dimensions (b : RenderBuilder) (cs : List ConfigCall) :
    (applyCalls b cs).dimensions =
      ((cs.filterMap callDimensions).getLast?).getD b.dimensions := by
  induction cs generalizing b with
  | nil => rfl
  | cons c cs ih =>
      cases c with
      | dimensionsCall d =>
          show (applyCalls (RenderBuilder.with_dimensions b d) cs).dimensions
            = _
          rw [ih]
          simp [callDimensions, getLast_getD_cons,
            RenderBuilder.with_dimensions]
      | vertexShader v =>
          show (applyCalls
            (RenderBuilder.with_vertex_shader b v) cs).dimensions = _
          rw [ih]
          simp [callDimensions, RenderBuilder.with_vertex_shader]
      | fragmentShader v =>
          show (applyCalls
            (RenderBuilder.with_fragment_shader b v) cs).dimensions = _
          rw [ih]
          simp [callDimensions, RenderBuilder.with_fragment_shader]
      | titleCall t =>
          show (applyCalls (RenderBuilder.with_title b t) cs).dimensions = _
          rw [ih]
          simp [callDimensions, RenderBuilder.with_title]

theorem applyCalls_vertex (b : RenderBuilder) (cs : List ConfigCall) :
    (applyCalls b cs).vertex_shader =
      ((cs.filterMap callVertex).getLast?).getD b.vertex_shader := by
  induction cs generalizing b with
  | nil => rfl
  | cons c cs ih =>
      cases c with
      | vertexShader v =>
          show (applyCalls
            (RenderBuilder.with_vertex_shader b v) cs).vertex_shader = _
          rw [ih]
          simp [callVertex, getLast_getD_cons,
            RenderBuilder.with_vertex_shader]
      | fragmentShader v =>
          show (applyCalls
            (RenderBuilder.with_fragment_shader b v) cs).vertex_shader = _
          rw [ih]
          simp [callVertex, RenderBuilder.with_fragment_shader]
      | titleCall t =>
          show (applyCalls (RenderBuilder.with_title b t) cs).vertex_shader
            = _
          rw [ih]
          simp [callVertex, RenderBuilder.with_title]
      | dimensionsCall d =>
          show (applyCalls
            (RenderBuilder.with_dimensions b d) cs).vertex_shader = _
          rw [ih]
          simp [callVertex, RenderBuilder.with_dimensions]

theorem applyCalls_fragment (b : RenderBuilder) (cs : List ConfigCall) :
    (applyCalls b cs).fragment_shader =
      ((cs.filterMap callFragment).getLast?).getD b.fragment_shader := by
  induction cs generalizing b with
  | nil => rfl
  | cons c cs ih =>
      cases c with
      | fragmentShader v =>
          show (applyCalls
            (RenderBuilder.with_fragment_shader b v) cs).fragment_shader = _
          rw [ih]
          simp [callFragment, getLast_getD_cons,
            RenderBuilder.with_fragment_shader]
      | vertexShader v =>
          show (applyCalls
            (RenderBuilder.with_vertex_shader b v) cs).fragment_shader = _
          rw [ih]
          simp [callFragment, RenderBuilder.with_vertex_shader]
      | titleCall t =>
          show (applyCalls
            (RenderBuilder.with_title b t) cs).fragment_shader = _
          rw [ih]
          simp [callFragment, RenderBuilder.with_title]
      | dimensionsCall d =>
          show (applyCalls
            (RenderBuilder.with_dimensions b d) cs).fragment_shader = _
          rw [ih]
          simp [callFragment, RenderBuilder.with_dimensions]

/-- C9: across any sequence of configuration-setter calls before
`build()`, only the last-set value of each of the four fields takes
effect; each setter rewrites exactly its own field and leaves every other
builder field unchanged; and a successful build wires the final
title/dimensions into the created window. -/
theorem setters_last_write_wins (b : RenderBuilder)
    (cs : List ConfigCall) :
    (applyCalls b cs).title =
      ((cs.filterMap callTitle).getLast?).getD b.title ∧
    (applyCalls b cs).dimensions =
      ((cs.filterMap callDimensions).getLast?).getD b.dimensions ∧
    (applyCalls b cs).vertex_shader =
      ((cs.filterMap callVertex).getLast?).getD b.vertex_shader ∧
    (applyCalls b cs).fragment_shader =
      ((cs.filterMap callFragment).getLast?).getD b.fragment_shader ∧
    (∀ t, RenderBuilder.with_title b t = { b with title := t }) ∧
    (∀ d, RenderBuilder.with_dimensions b d = { b with dimensions := d }) ∧
    (∀ v, RenderBuilder.with_vertex_shader b v =
      { b with vertex_shader := v }) ∧
    (∀ v, RenderBuilder.with_fragment_shader b v =
      { b with fragment_shader := v }) ∧
    (∀ env tr ctx, build env (applyCalls b cs) = (tr, Except.ok ctx) →
      ctx.window = { title := (applyCalls b cs).title,
                     dimensions := (applyCalls b cs).dimensions }) :=
  ⟨applyCalls_title b cs, applyCalls_dimensions b cs,
   applyCalls_vertex b cs, applyCalls_fragment b cs,
   fun _ => rfl, fun _ => rfl, fun _ => rfl, fun _ => rfl,
   fun _ _ _ h => (build_ok_window_instance h).1⟩

/-- The setter-call sequence the C9 witness replays: every setter called
twice with different values. -/
def sampleCalls : List ConfigCall :=
  [ConfigCall.titleCall "first", ConfigCall.dimensionsCall (100, 100),
   ConfigCall.vertexShader [9], ConfigCall.fragmentShader [8],
   ConfigCall.titleCall "demo", ConfigCall.dimensionsCall (800, 600),
   ConfigCall.vertexShader [1, 2], ConfigCall.fragmentShader [3, 4]]

/-- Witness for C9: replaying `sampleCalls` leaves exactly the last-set
values, and the built window carries them. -/
theorem setters_last_write_wins_witness :
    (applyCalls RenderBuilder.new sampleCalls).title =
      ((sampleCalls.filterMap callTitle).getLast?).getD
        RenderBuilder.new.title ∧
    (applyCalls RenderBuilder.new sampleCalls).title = "demo" ∧
    (applyCalls RenderBuilder.new sampleCalls).dimensions = (800, 600) ∧
    (applyCalls RenderBuilder.new sampleCalls).vertex_shader = [1, 2] ∧
    (applyCalls RenderBuilder.new sampleCalls).fragment_shader = [3, 4] ∧
    ((build sampleEnv (applyCalls RenderBuilder.new
        sampleCalls)).2.toOption.getD fallbackContext).window =
      { title := (applyCalls RenderBuilder.new sampleCalls).title,
        dimensions :=
          (applyCalls RenderBuilder.new sampleCalls).dimensions } := by
  have h := setters_last_write_wins RenderBuilder.new sampleCalls
  refine ⟨h.1, by rfl, by rfl, by rfl, by rfl, ?_⟩
  exact h.2.2.2.2.2.2.2.2 sampleEnv
    (build sampleEnv (applyCalls RenderBuilder.new sampleCalls)).1
    ((build sampleEnv (applyCalls RenderBuilder.new
      sampleCalls)).2.toOption.getD fallbackContext) (by rfl)

/-- C10: when the backend hands back a ready-made framebuffer, the
returned context has exactly one framebuffer (the backend's, used as-is)
and exactly zero image views. -/
theorem prebuilt_backbuffer_exactly_one (env : Env) (b : RenderBuilder)
    (tr : List Event) (ctx : RenderContext) (fbo : Nat)
    (hbb : env.backbuffer = Backbuffer.Framebuffer fbo)
    (h : build env b = (tr, Except.ok ctx)) :
    ctx.frame_buffers = [Framebuffer.prebuilt fbo] ∧
    ctx.frame_buffers.length = 1 ∧ ctx.image_views = [] := by
  unfold build at h
  obtain ⟨t1, b5, t2, hpre, hfin, htr⟩ := stageBind_eq_ok h
  obtain ⟨dev, fmt, caps, rp, inst, el, win, surf, qg, cp, _, _, _, _, _, _,
    _, _, _, _, _, _, _, _, _, _, _, _, _, _, _, _, _, _, _, hbranch⟩ :=
    finish_eq_ok hfin
  cases hbranch with
  | inl hI =>
      obtain ⟨images, ivtr, fbtr, hB, _⟩ := hI
      rw [hbb] at hB
      cases hB
  | inr hF =>
      obtain ⟨fbo', hB, hv, hfb, _⟩ := hF
      rw [hbb] at hB
      injection hB with he
      subst he
      exact ⟨hfb, by rw [hfb]; rfl, hv⟩

/-- Witness for C10 at the prebuilt-framebuffer environment. -/
theorem prebuilt_backbuffer_exactly_one_witness :
    prebuiltEnv.backbuffer = Backbuffer.Framebuffer 7 ∧
    ((build prebuiltEnv sampleBuilder).2.toOption.getD
        fallbackContext).frame_buffers = [Framebuffer.prebuilt 7] ∧
    ((build prebuiltEnv sampleBuilder).2.toOption.getD
        fallbackContext).frame_buffers.length = 1 ∧
    ((build prebuiltEnv sampleBuilder).2.toOption.getD
        fallbackContext).image_views = [] :=
  ⟨rfl,
   prebuilt_backbuffer_exactly_one prebuiltEnv sampleBuilder
     (build prebuiltEnv sampleBuilder).1
     ((build prebuiltEnv sampleBuilder).2.toOption.getD fallbackContext)
     7 rfl (by rfl)⟩

end Luminite
